import Mathlib

/-!
# TunnelDock — verification of the reconciliation engine

Shallow embedding of the TunnelDock sources (`src/main.ts`,
`src/services/docker.ts`, `src/services/cloudflare.ts`,
`src/services/data.ts`, `src/schemas.ts`) in Lean 4.

Conventions of the embedding:
* JavaScript strings are Lean `String`s; the handful of string primitives the
  code uses (`startsWith`, `endsWith`, `split('.')`, `toLowerCase`,
  `replace("/","")`, `parseInt`) are re-implemented structurally over
  `List Char` so that every definition evaluates by kernel reduction.
* JS objects with optional keys become structures with `Option` fields;
  JS truthiness checks (`||`, `if (x)`) become explicit tests against
  `none` / `0` / `""`.
* JS objects used as string-keyed maps (`data.tunnels`, `data.domains`)
  become association lists `List (String × _)`; JS key update keeps the
  position of an existing key and appends a fresh key, which `updateAssoc`
  mirrors.
* The external collaborators (Docker, the Cloudflare API, the filesystem)
  are modelled at their interface boundary: remote state is passed in and
  returned explicitly, and remote mutations are additionally reported as
  explicit call traces so "no call was made" is expressible.
-/

namespace TunnelDock

/-! ## JavaScript string primitives -/

/-- `pre` is a prefix of `s` — JS `String.prototype.startsWith`. -/
def jsStartsWith (s pre : String) : Bool :=
  pre.data.isPrefixOf s.data

/-- `suf` is a suffix of `s` — JS `String.prototype.endsWith`. -/
def jsEndsWith (s suf : String) : Bool :=
  suf.data.isSuffixOf s.data

/-- Split a character list at every `'.'` — the character-level core of
JS `String.prototype.split('.')`. -/
def splitOnDotAux : List Char → List (List Char)
  | [] => [[]]
  | c :: cs =>
    let rest := splitOnDotAux cs
    if c = '.' then [] :: rest
    else
      match rest with
      | [] => [[c]]
      | h :: t => (c :: h) :: t

/-- JS `s.split('.')`. -/
def jsSplitDot (s : String) : List String :=
  (splitOnDotAux s.data).map (fun l => String.mk l)

/-- JS `s.toLowerCase()` (ASCII behaviour suffices for the label values used). -/
def jsToLower (s : String) : String :=
  String.mk (s.data.map Char.toLower)

/-- Remove the first occurrence of `'/'` — the character-level core of
JS `s.replace("/", "")` as used on Docker container names. -/
def removeFirstSlashAux : List Char → List Char
  | [] => []
  | c :: cs => if c = '/' then cs else c :: removeFirstSlashAux cs

/-- JS `s.replace("/", "")`: only the first occurrence is replaced. -/
def removeFirstSlash (s : String) : String :=
  String.mk (removeFirstSlashAux s.data)

/-- Value of a list of decimal digits. -/
def digitsVal (l : List Char) : Nat :=
  l.foldl (fun a c => a * 10 + (c.toNat - 48)) 0

/-- JS `parseInt(s)` on the decimal strings appearing in labels: an optional
leading `'-'` followed by a longest digit prefix; no digits gives `NaN`,
modelled as `none`. -/
def jsParseInt (s : String) : Option Int :=
  match s.data with
  | '-' :: rest =>
    if (rest.takeWhile Char.isDigit) = [] then none
    else some (-(digitsVal (rest.takeWhile Char.isDigit) : Int))
  | l =>
    if (l.takeWhile Char.isDigit) = [] then none
    else some ((digitsVal (l.takeWhile Char.isDigit) : Int))

/-- JS `a || b` where `a : Option Int` holds a possibly-absent number:
`0` (and absence) are falsy. -/
def jsOrInt : Option Int → Int → Int
  | some n, d => if n = 0 then d else n
  | none, d => d

/-- JS `a || b` where `a : Option String`: `""` (and absence) are falsy. -/
def jsOrStr : Option String → String → String
  | some s, d => if s = "" then d else s
  | none, d => d

/-- First-`some` choice, i.e. the effect of a later JS object-spread key
overriding an earlier one when present. -/
def optOr : Option α → Option α → Option α
  | some a, _ => some a
  | none, b => b

/-! ## Association-list maps (JS string-keyed objects) -/

/-- JS `m[k]` lookup: the value at the first matching key. -/
def lookupAssoc : List (String × α) → String → Option α
  | [], _ => none
  | kv :: rest, k => if kv.1 = k then some kv.2 else lookupAssoc rest k

/-- JS `m[k] = v`: replaces the value in place when the key exists,
appends the key otherwise. -/
def updateAssoc (m : List (String × α)) (k : String) (v : α) : List (String × α) :=
  if m.any (fun kv => decide (kv.1 = k)) then
    m.map (fun kv => if kv.1 = k then (k, v) else kv)
  else m ++ [(k, v)]

/-- JS `delete m[k]`. -/
def removeAssoc (m : List (String × α)) (k : String) : List (String × α) :=
  m.filter (fun kv => decide (¬ kv.1 = k))

/-! ## `schemas.ts` — the data model -/

/-- `portSchema`: `{IP?, PrivatePort, PublicPort?, Type}`. The source field
`Type` is a Lean keyword and is embedded as `portType`. -/
structure Port where
  IP : Option String := none
  PrivatePort : Int
  PublicPort : Option Int := none
  portType : String := "tcp"
deriving DecidableEq, Repr

/-- `tunnelOriginRequestSchema`: every recognized origin-request option,
all optional. -/
structure OriginRequest where
  connectTimeout : Option Int := none
  disableChunkedEncoding : Option Bool := none
  http2Origin : Option Bool := none
  httpHostHeader : Option String := none
  keepAliveConnections : Option Int := none
  keepAliveTimeout : Option Int := none
  noHappyEyeballs : Option Bool := none
  noTLSVerify : Option Bool := none
  originServerName : Option String := none
  proxyType : Option String := none
  tcpKeepAlive : Option Int := none
  tlsTimeout : Option Int := none
deriving DecidableEq, Repr

/-- `customContainerInfoSchema` (the fields the engine reads; the untyped
`NetworkSettings`/`Mounts` passthrough fields are not consulted anywhere). -/
structure ContainerInfo where
  Names : List String
  Image : String := ""
  State : String
  Status : String := ""
  Ports : Option (List Port) := none
  Labels : Option (List (String × String)) := none
  created : String := ""
deriving DecidableEq, Repr

/-- `dockerServiceSchema`: `{protocol (default http), port?, path?}`. -/
structure ServiceConfig where
  protocol : String := "http"
  port : Option Int := none
  path : Option String := none
deriving DecidableEq, Repr

/-- `dockerLabelConfigSchema`: parsed `tunneldock.*` labels. -/
structure LabelConfig where
  hostname : Option String := none
  assign : Option Bool := none
  service : Option ServiceConfig := none
  originRequest : OriginRequest := {}
deriving DecidableEq, Repr

/-- `dockerTunnelConfigSchema`: the routing declaration handed to the
reconciler. -/
structure TunnelCfg where
  containerName : String
  hostname : String
  port : Int
  service : String
  originRequest : OriginRequest := {}
deriving DecidableEq, Repr

/-- `tunnelRecordSchema`: the persisted per-hostname sync record.
(`saveData` validates against this schema, which strips any other key.) -/
structure TunnelRecord where
  hostname : String
  service : String
  lastSync : String
  tunnelId : String
  dnsStatus : Option String := none
  configStatus : String
deriving DecidableEq, Repr

/-- `domainRecordSchema`: the persisted per-hostname domain record. -/
structure DomainRecord where
  hostname : String
  target : String
  lastSync : String
  status : String
deriving DecidableEq, Repr

/-- `tunnelUpdateSchema`: the payload of `DataService.updateTunnelData`. -/
structure TunnelUpdate where
  hostname : String
  service : String
  tunnelId : String
  configStatus : String
  dnsStatus : Option String := none
  originRequest : Option OriginRequest := none
deriving DecidableEq, Repr

/-- `tunnelDockDataSchema`: the whole persisted store. -/
structure TunnelDockData where
  timestamp : String
  containers : List ContainerInfo
  tunnels : List (String × TunnelRecord)
  domains : List (String × DomainRecord)
deriving DecidableEq, Repr

/-! ## `DockerService` — label parsing and desired-state derivation -/

/-- The `switch (path[2])` of the `'service'` case in
`parseDotNotationLabels`. -/
def parseServicePart (s : ServiceConfig) (field value : String) : ServiceConfig :=
  match field with
  | "protocol" => { s with protocol := value }
  | "port" => { s with port := jsParseInt value }
  | "path" => { s with path := some value }
  | _ => s

/-- The `originRequestParsers` lookup table applied to one
`originRequest.<setting>` label; unrecognized settings are ignored. -/
def setOriginField (o : OriginRequest) (field value : String) : OriginRequest :=
  match field with
  | "http2Origin" => { o with http2Origin := some (jsToLower value = "true") }
  | "noTLSVerify" => { o with noTLSVerify := some (jsToLower value = "true") }
  | "disableChunkedEncoding" => { o with disableChunkedEncoding := some (jsToLower value = "true") }
  | "noHappyEyeballs" => { o with noHappyEyeballs := some (jsToLower value = "true") }
  | "connectTimeout" => { o with connectTimeout := jsParseInt value }
  | "keepAliveConnections" => { o with keepAliveConnections := jsParseInt value }
  | "keepAliveTimeout" => { o with keepAliveTimeout := jsParseInt value }
  | "tcpKeepAlive" => { o with tcpKeepAlive := jsParseInt value }
  | "tlsTimeout" => { o with tlsTimeout := jsParseInt value }
  | "httpHostHeader" => { o with httpHostHeader := some value }
  | "originServerName" => { o with originServerName := some value }
  | "proxyType" => { o with proxyType := some value }
  | _ => o

/-- One iteration of the `for (const [key, value] of Object.entries(labels))`
loop of `parseDotNotationLabels`. -/
def applyLabel (config : LabelConfig) (key value : String) : LabelConfig :=
  if ¬ jsStartsWith key "tunneldock." then config
  else
    let path := jsSplitDot key
    if path.length < 2 then config
    else
      match path.get? 1 with
      | some "hostname" => { config with hostname := some value }
      | some "assign" => { config with assign := some (jsToLower value = "true") }
      | some "service" =>
        let s := config.service.getD { protocol := "http" }
        if path.length < 3 then { config with service := some s }
        else
          match path.get? 2 with
          | some f => { config with service := some (parseServicePart s f value) }
          | none => { config with service := some s }
      | some "originRequest" =>
        if path.length < 3 then config
        else
          match path.get? 2 with
          | some f => { config with originRequest := setOriginField config.originRequest f value }
          | none => config
      | _ => config

/-- `DockerService.parseDotNotationLabels` (docker.ts:45-92); the final
`dockerLabelConfigSchema.parse` is the identity on this well-typed value. -/
def parseDotNotationLabels (labels : List (String × String)) : LabelConfig :=
  labels.foldl (fun c kv => applyLabel c kv.1 kv.2) { originRequest := {} }

/-- Hostname resolution of `shouldManageTunnel` (docker.ts:106-118):
a truthy label hostname is taken as-is when it already ends in the base
domain and has the domain appended otherwise (with a logged warning);
a falsy label hostname falls back to `<containerName>.<domain>`. -/
def resolveHostname (domain : String) (labelHostname : Option String) (containerName : String) : String :=
  match labelHostname with
  | some h =>
    if h = "" then containerName ++ "." ++ domain
    else if ¬ jsEndsWith h domain then h ++ "." ++ domain
    else h
  | none => containerName ++ "." ++ domain

/-- Port resolution of `shouldManageTunnel` (docker.ts:120):
`config.service?.port || container.Ports?.[0]?.PublicPort || 80`.
Only the first element of the ports list is ever consulted. -/
def resolvePort (service : Option ServiceConfig) (ports : Option (List Port)) : Int :=
  jsOrInt (service.bind (fun s => s.port))
    (jsOrInt ((ports.getD []).head?.bind (fun p => p.PublicPort)) 80)

/-- Origin service URL synthesis of `shouldManageTunnel` (docker.ts:124-127). -/
def buildService (protocol : String) (port : Int) (path : String) : String :=
  let base := protocol ++ "://localhost:" ++ toString port
  if path = "" then base
  else if jsStartsWith path "/" then base ++ path
  else base ++ "/" ++ path

/-- The routing declaration `shouldManageTunnel` builds before its gate
(docker.ts:105-136): container name, hostname, port, protocol, path and
origin URL resolution; `dockerTunnelConfigSchema.parse` is the identity. -/
def deriveTunnelConfig (domain : String) (container : ContainerInfo) : TunnelCfg :=
  let config := parseDotNotationLabels (container.Labels.getD [])
  let containerName := removeFirstSlash (container.Names.headD "")
  let hostname := resolveHostname domain config.hostname containerName
  let port := resolvePort config.service container.Ports
  let protocol := jsOrStr (config.service.map (fun s => s.protocol)) "http"
  let path := jsOrStr (config.service.bind (fun s => s.path)) ""
  { containerName := containerName
    hostname := hostname
    port := port
    service := buildService protocol port path
    originRequest := config.originRequest }

/-- Result of `shouldManageTunnel`: `config` is only populated together with
`shouldManage = true` (the code's early returns carry no `config`). -/
structure ManageResult where
  shouldManage : Bool
  config : Option TunnelCfg
deriving DecidableEq, Repr

/-- `DockerService.shouldManageTunnel` (docker.ts:94-145). The gate
(docker.ts:129) emits a declaration only when
`previousState !== container.State && container.State === "running"`;
an absent `previousState` (JS `undefined`) always differs from the
`State` string. -/
def shouldManageTunnel (domain : String) (container : ContainerInfo)
    (previousState : Option String) : ManageResult :=
  let config := parseDotNotationLabels (container.Labels.getD [])
  if config.assign = some true then
    if previousState ≠ some container.State ∧ container.State = "running" then
      { shouldManage := true, config := some (deriveTunnelConfig domain container) }
    else { shouldManage := false, config := none }
  else { shouldManage := false, config := none }

/-! ## `CloudflareService` — ingress rule mutations

The remote ingress configuration is an ordered rule list; the engine reads
it whole and writes it back whole. The pure list transformations below are
the bodies of `updateTunnelConfig` and `deleteTunnelConfig` between their
`configurations.get` and `configurations.update` calls. -/

/-- One remote ingress rule. The code's default catch-all carries no
`originRequest`, rules written by the engine carry a merged one. -/
structure IngressRule where
  hostname : String
  service : String
  originRequest : Option OriginRequest := none
deriving DecidableEq, Repr

/-- The catch-all rule `{ service: "http_status:404", hostname: "*" }`. -/
def catchAllRule : IngressRule :=
  { hostname := "*", service := "http_status:404" }

/-- The `TunnelConfig` argument `main.ts` passes to `updateTunnelConfig`:
hostname, origin service URL, optional origin-request options. -/
structure TunnelConfigReq where
  hostname : String
  service : String
  originRequest : Option OriginRequest := none
deriving DecidableEq, Repr

/-- `defaultOriginRequest` (cloudflare.ts `updateTunnelConfig`). -/
def defaultOriginRequest : OriginRequest :=
  { connectTimeout := some 0
    disableChunkedEncoding := some false
    http2Origin := some false
    noTLSVerify := some false
    tcpKeepAlive := some 30 }

/-- JS `{ ...base, ...over }` on origin-request option bags: every key
present in `over` overrides the same key of `base`; spreading an absent
bag changes nothing. -/
def spreadOriginRequest (base : OriginRequest) (over : Option OriginRequest) : OriginRequest :=
  match over with
  | none => base
  | some o =>
    { connectTimeout := optOr o.connectTimeout base.connectTimeout
      disableChunkedEncoding := optOr o.disableChunkedEncoding base.disableChunkedEncoding
      http2Origin := optOr o.http2Origin base.http2Origin
      httpHostHeader := optOr o.httpHostHeader base.httpHostHeader
      keepAliveConnections := optOr o.keepAliveConnections base.keepAliveConnections
      keepAliveTimeout := optOr o.keepAliveTimeout base.keepAliveTimeout
      noHappyEyeballs := optOr o.noHappyEyeballs base.noHappyEyeballs
      noTLSVerify := optOr o.noTLSVerify base.noTLSVerify
      originServerName := optOr o.originServerName base.originServerName
      proxyType := optOr o.proxyType base.proxyType
      tcpKeepAlive := optOr o.tcpKeepAlive base.tcpKeepAlive
      tlsTimeout := optOr o.tlsTimeout base.tlsTimeout }

/-- JS `Array.prototype.findIndex`, as an `Option Nat`. -/
def jsFindIndex (p : α → Bool) : List α → Option Nat
  | [] => none
  | a :: as => if p a then some 0 else (jsFindIndex p as).map (fun i => i + 1)

/-- The rule-list transformation of `updateTunnelConfig`: replace the rule
with the target hostname in place if one exists, otherwise
`splice(length - 1, 0, newRule)` — insert immediately before the trailing
element. -/
def applyUpsert (rules : List IngressRule) (newRule : IngressRule) : List IngressRule :=
  match jsFindIndex (fun r => decide (r.hostname = newRule.hostname)) rules with
  | some i => rules.set i newRule
  | none => rules.take (rules.length - 1) ++ newRule :: rules.drop (rules.length - 1)

/-- `updateTunnelConfig` on the fetched ingress list (cloudflare.ts:298-323):
builds the new rule with defaults layered under the declaration's options,
then upserts it by hostname. -/
def updateTunnelConfigRules (rules : List IngressRule) (cfg : TunnelConfigReq) : List IngressRule :=
  applyUpsert rules
    { hostname := cfg.hostname
      service := cfg.service
      originRequest := some (spreadOriginRequest defaultOriginRequest cfg.originRequest) }

/-- `currentConfig.config?.ingress || [catchAll]` — only an *absent* remote
list falls back to the default (a present empty array is truthy in JS). -/
def updateTunnelConfigIngress (ingress : Option (List IngressRule)) (cfg : TunnelConfigReq) : List IngressRule :=
  updateTunnelConfigRules (ingress.getD [catchAllRule]) cfg

/-- The rule-list transformation of `deleteTunnelConfig`
(cloudflare.ts:384-392): drop every rule for the hostname, then re-append
the catch-all if none is left. -/
def deleteTunnelConfigRules (rules : List IngressRule) (hostname : String) : List IngressRule :=
  let filtered := rules.filter (fun r => decide (¬ r.hostname = hostname))
  if filtered.any (fun r => decide (r.hostname = "*")) then filtered
  else filtered ++ [catchAllRule]

/-- `currentConfig.config?.ingress || []` in `deleteTunnelConfig`. -/
def deleteTunnelConfigIngress (ingress : Option (List IngressRule)) (hostname : String) : List IngressRule :=
  deleteTunnelConfigRules (ingress.getD []) hostname

/-- A remote ingress mutation step: an upsert issued by `syncContainer` or a
retraction issued by `cleanupStaleRecords`. -/
inductive IngressOp where
  | upsert (cfg : TunnelConfigReq)
  | retract (hostname : String)
deriving DecidableEq, Repr

/-- Apply one ingress mutation to the remote rule list. -/
def applyIngressOp (rules : List IngressRule) : IngressOp → List IngressRule
  | .upsert cfg => updateTunnelConfigIngress (some rules) cfg
  | .retract h => deleteTunnelConfigIngress (some rules) h

/-- Apply a finite sequence of upserts/retractions. -/
def applyIngressOps (rules : List IngressRule) (ops : List IngressOp) : List IngressRule :=
  ops.foldl applyIngressOp rules

/-- Hostname column of a rule list. -/
def ruleHostnames (rules : List IngressRule) : List String :=
  rules.map (fun r => r.hostname)

/-- The catch-all invariant: exactly one rule with hostname `*`, and it is
the last element of the list. -/
@[reducible] def catchAllOk (rules : List IngressRule) : Prop :=
  (ruleHostnames rules).count "*" = 1 ∧ (ruleHostnames rules).getLast? = some "*"

/-! ## `CloudflareService` — DNS record management

The zone's record set is external state owned by the provider; it is
modelled as an explicit value threaded through `manageDNSRecord`, which is
otherwise a line-by-line embedding of cloudflare.ts:223-276. The provider
(modelled from the spec's interface boundary, §6, plus the provider's
documented canonicalization) stores every record under a fully qualified
name: a `name` argument that does not already end in the zone's domain is
qualified by appending the domain. -/

/-- A provider-side DNS record (id, stored fully-qualified name, type,
target content). -/
structure DNSRecord where
  id : Nat
  name : String
  rtype : String
  content : String
deriving DecidableEq, Repr

/-- The provider's zone state: its apex domain, the record set, and the id
the next created record receives. -/
structure DNSZone where
  zoneDomain : String
  records : List DNSRecord
  nextId : Nat := 0
deriving DecidableEq, Repr

/-- Provider-side canonicalization of a record name. -/
def canonicalDNSName (zoneDomain name : String) : String :=
  if jsEndsWith name zoneDomain then name else name ++ "." ++ zoneDomain

/-- `dns.records.list({ name: { exact: hostname }, type: "CNAME" })`. -/
def listCNAME (zone : DNSZone) (hostname : String) : List DNSRecord :=
  zone.records.filter (fun r => decide (r.name = hostname ∧ r.rtype = "CNAME"))

/-- `dns.records.create({ name, type: "CNAME", content })`. -/
def createCNAME (zone : DNSZone) (name content : String) : DNSZone :=
  { zone with
    records := zone.records ++
      [{ id := zone.nextId
         name := canonicalDNSName zone.zoneDomain name
         rtype := "CNAME"
         content := content }]
    nextId := zone.nextId + 1 }

/-- `dns.records.update(id, { name, type: "CNAME", content })`. -/
def updateCNAME (zone : DNSZone) (id : Nat) (name content : String) : DNSZone :=
  { zone with
    records := zone.records.map (fun r =>
      if r.id = id then
        { r with name := canonicalDNSName zone.zoneDomain name, content := content }
      else r) }

/-- A remote DNS mutation call, recorded so that "no remote call was made"
is a statement about the trace. -/
inductive DNSCall where
  | create (name content : String)
  | update (id : Nat) (name content : String)
deriving DecidableEq, Repr

/-- Result of `manageDNSRecord`: the returned status string, the zone after
the call, and the mutation calls issued. -/
structure DNSResult where
  status : String
  zone : DNSZone
  calls : List DNSCall
deriving DecidableEq, Repr

/-- `CloudflareService.manageDNSRecord` (cloudflare.ts:223-276): look up the
CNAME records for the exact hostname; create / update / leave alone the
first one, passing `hostname.split('.')[0]` as the record name to the
create and update calls. -/
def manageDNSRecord (zone : DNSZone) (hostname tunnelId : String) : DNSResult :=
  let subdomain := (jsSplitDot hostname).headD ""
  let target := tunnelId ++ ".cfargotunnel.com"
  match listCNAME zone hostname with
  | [] =>
    { status := "created"
      zone := createCNAME zone subdomain target
      calls := [.create subdomain target] }
  | r :: _ =>
    if r.content ≠ target then
      { status := "updated"
        zone := updateCNAME zone r.id subdomain target
        calls := [.update r.id subdomain target] }
    else
      { status := "unchanged", zone := zone, calls := [] }

/-! ## `DataService` — the persisted store -/

/-- `DataService.updateTunnelData`'s record construction:
`{ ...existingTunnel, ...data, lastSync: timestamp }` — fields of the
existing record survive unless the update supplies them, and `lastSync` is
always refreshed. (`saveData`'s schema validation strips the optional
`originRequest` key, which `tunnelRecordSchema` does not declare.) -/
def mergeTunnelRecord (existing : Option TunnelRecord) (data : TunnelUpdate)
    (timestamp : String) : TunnelRecord :=
  { hostname := data.hostname
    service := data.service
    tunnelId := data.tunnelId
    configStatus := data.configStatus
    dnsStatus := optOr data.dnsStatus (existing.bind (fun t => t.dnsStatus))
    lastSync := timestamp }

/-- `DataService.updateTunnelData` (data.ts:58-80) as a pure store
transformation (`loadData` reads the store value, `saveData` writes it). -/
def updateTunnelData (store : TunnelDockData) (hostname : String)
    (data : TunnelUpdate) (now : String) : TunnelDockData :=
  { store with
    tunnels := updateAssoc store.tunnels hostname
      (mergeTunnelRecord (lookupAssoc store.tunnels hostname) data now) }

/-! ## `main.ts` — syncContainer, cleanupStaleRecords, watchContainers -/

/-- A remote call issued by `syncContainer`. -/
inductive RemoteCall where
  | ingressUpdate (tunnelId hostname service : String)
  | dnsManage (hostname tunnelId : String)
deriving DecidableEq, Repr

/-- The remote calls `TunnelDock.syncContainer` (main.ts:50-102) issues:
nothing at all unless `shouldManage && config`, otherwise the ingress
configuration update followed by the DNS management call. -/
def syncContainerCalls (domain tunnelId : String) (c : ContainerInfo)
    (prev : Option String) : List RemoteCall :=
  match shouldManageTunnel domain c prev with
  | { shouldManage := true, config := some cfg } =>
    [.ingressUpdate tunnelId cfg.hostname cfg.service, .dnsManage cfg.hostname tunnelId]
  | _ => []

/-- The first `updateTunnelData` payload of `syncContainer` (main.ts:72-77):
written right after the ingress mutation, carrying no `dnsStatus`. -/
def syncFirstWrite (cfg : TunnelCfg) (tunnelId : String) : TunnelUpdate :=
  { hostname := cfg.hostname
    tunnelId := tunnelId
    service := cfg.service
    configStatus := "updated" }

/-- The second `updateTunnelData` payload of `syncContainer`
(main.ts:86-92): written after the DNS mutation, carrying its status. -/
def syncSecondWrite (cfg : TunnelCfg) (tunnelId dnsStatus : String) : TunnelUpdate :=
  { hostname := cfg.hostname
    tunnelId := tunnelId
    service := cfg.service
    configStatus := "updated"
    dnsStatus := some dnsStatus }

/-- The persisted-store effect of a `syncContainer` run whose remote calls
succeed (main.ts:50-102): under the gate, the sync record is written twice
in sequence — once after the ingress mutation, once after the DNS mutation
whose returned status is `dnsStatus`. -/
def syncContainerStore (domain tunnelId : String) (c : ContainerInfo)
    (prev : Option String) (dnsStatus now : String)
    (store : TunnelDockData) : TunnelDockData :=
  match shouldManageTunnel domain c prev with
  | { shouldManage := true, config := some cfg } =>
    updateTunnelData
      (updateTunnelData store cfg.hostname (syncFirstWrite cfg tunnelId) now)
      cfg.hostname (syncSecondWrite cfg tunnelId dnsStatus) now
  | _ => store

/-- `syncContainer` with its `catch`: if the first persistence write raises
(`saveData` re-throws), the store file is left as it was and the error is
swallowed at this per-hostname boundary. -/
def syncContainerStep (domain tunnelId : String) (c : ContainerInfo)
    (prev : Option String) (dnsStatus now : String) (saveFails : Bool)
    (store : TunnelDockData) : TunnelDockData :=
  if saveFails then store
  else syncContainerStore domain tunnelId c prev dnsStatus now store

/-- The desired-hostname set `cleanupStaleRecords` computes (main.ts:110-116):
the hostnames of the configs returned by `shouldManageTunnel(container)`
called *without* a previous state. -/
def activeHostnames (domain : String) (containers : List ContainerInfo) : List String :=
  containers.filterMap (fun c => ((shouldManageTunnel domain c none).config).map (fun cfg => cfg.hostname))

/-- The stale set of `cleanupStaleRecords` (main.ts:119-121): persisted
tunnel hostnames not in the desired set. -/
def staleHostnames (domain : String) (containers : List ContainerInfo)
    (tunnels : List (String × TunnelRecord)) : List String :=
  (tunnels.map (fun kv => kv.1)).filter (fun h => decide (¬ h ∈ activeHostnames domain containers))

/-- The local-store effect of `cleanupStaleRecords` (main.ts:104-160) with
all remote deletions succeeding: each stale hostname's tunnel and domain
records are deleted, and the store is saved with a fresh timestamp iff at
least one hostname was stale. Returns the store and the stale list. -/
def cleanupStore (domain : String) (containers : List ContainerInfo)
    (store : TunnelDockData) (now : String) : TunnelDockData × List String :=
  let stale := staleHostnames domain containers store.tunnels
  let cleaned := stale.foldl
    (fun s h => { s with tunnels := removeAssoc s.tunnels h, domains := removeAssoc s.domains h })
    store
  if stale.isEmpty then (store, stale)
  else ({ cleaned with timestamp := now }, stale)

/-- The external observations and failure oracles of one iteration of the
`while (true)` loop in `watchContainers`. -/
structure TickInput where
  containers : List ContainerInfo
  now : String
  dnsStatus : String := "created"
  snapshotSaveFails : Bool := false
  syncSaveFails : Bool := false
  cleanupSaveFails : Bool := false
deriving Repr

/-- Outcome of one loop iteration: whether it ran to completion (`ok`), and
the persisted-store file content afterwards. An exception escaping the
iteration leaves `ok = false`. -/
structure TickResult where
  ok : Bool
  store : TunnelDockData
deriving Repr

/-- The per-tick container-snapshot write (main.ts:176-181): the stored
file is replaced with a fresh timestamp and the new snapshot, preserving
the tunnels and domains maps. -/
def tickSnapshotStore (input : TickInput) (store : TunnelDockData) : TunnelDockData :=
  { timestamp := input.now
    containers := input.containers
    tunnels := store.tunnels
    domains := store.domains }

/-- The per-container sync pass of one tick (main.ts:184-189): each
container is synced against the state it had in the previous snapshot. -/
def tickSyncStore (domain tunnelId : String) (input : TickInput)
    (prevContainers : List ContainerInfo) (store : TunnelDockData) : TunnelDockData :=
  input.containers.foldl
    (fun s c =>
      let prev := (prevContainers.find? (fun p => p.Names.head? == c.Names.head?)).map
        (fun p => p.State)
      syncContainerStep domain tunnelId c prev input.dnsStatus input.now input.syncSaveFails s)
    store

/-- One iteration of `watchContainers` (main.ts:171-196): persist the
container snapshot (preserving tunnels/domains), sync every container
against its previous state, then sweep stale records. A failing `saveData`
in the snapshot write or in the sweep's final write (which only runs when
the sweep found stale hostnames) escapes the iteration (there is no
per-tick catch); a failing `saveData` inside `syncContainer` is caught
there. -/
def runTick (domain tunnelId : String) (input : TickInput)
    (prevContainers : List ContainerInfo) (store : TunnelDockData) : TickResult :=
  if input.snapshotSaveFails then { ok := false, store := store }
  else
    let store2 := tickSyncStore domain tunnelId input prevContainers
      (tickSnapshotStore input store)
    let swept := cleanupStore domain input.containers store2 input.now
    if swept.2.isEmpty then { ok := true, store := store2 }
    else if input.cleanupSaveFails then { ok := false, store := store2 }
    else { ok := true, store := swept.1 }

/-- `watchContainers` (main.ts:162-200): the whole `while (true)` loop sits
inside a single `try`, so the first error escaping an iteration is caught
by the outer handler and the loop ends. Returns the number of completed
iterations and the final store file content. -/
def runLoop (domain tunnelId : String) :
    List TickInput → List ContainerInfo → TunnelDockData → Nat × TunnelDockData
  | [], _, store => (0, store)
  | input :: rest, prevContainers, store =>
    let r := runTick domain tunnelId input prevContainers store
    if r.ok then
      let next := runLoop domain tunnelId rest input.containers r.store
      (next.1 + 1, next.2)
    else (0, r.store)

end TunnelDock
namespace TunnelDock

/-! ## Helper lemmas -/

theorem set_self_of_getElem? {α : Type u} (l : List α) : ∀ (i : Nat) (a : α),
    l[i]? = some a → l.set i a = l := by
  induction l with
  | nil => intro i a h; simp at h
  | cons x xs ih =>
    intro i a h
    cases i with
    | zero =>
      simp at h
      subst h
      rfl
    | succ n =>
      simp at h
      show x :: xs.set n a = x :: xs
      rw [ih n a h]

theorem jsFindIndex_some {α : Type u} (p : α → Bool) (l : List α) : ∀ (i : Nat),
    jsFindIndex p l = some i → ∃ a, l[i]? = some a ∧ p a = true := by
  induction l with
  | nil => intro i h; simp [jsFindIndex] at h
  | cons x xs ih =>
    intro i h
    by_cases hp : p x
    · simp [jsFindIndex, hp] at h
      subst h
      exact ⟨x, by simp, hp⟩
    · simp [jsFindIndex, hp] at h
      cases hfi : jsFindIndex p xs with
      | none => rw [hfi] at h; simp at h
      | some j =>
        rw [hfi] at h
        simp at h
        obtain ⟨a, ha, hpa⟩ := ih j hfi
        subst h
        exact ⟨a, by simpa using ha, hpa⟩

theorem jsFindIndex_none {α : Type u} (p : α → Bool) (l : List α)
    (h : jsFindIndex p l = none) : ∀ a ∈ l, p a = false := by
  induction l with
  | nil => intro a ha; simp at ha
  | cons x xs ih =>
    intro a ha
    by_cases hp : p x
    · simp [jsFindIndex, hp] at h
    · simp [jsFindIndex, hp] at h
      rcases List.mem_cons.mp ha with rfl | hm
      · exact Bool.eq_false_iff.mpr hp
      · exact ih h a hm

theorem ruleHostnames_set (rules : List IngressRule) (i : Nat) (nr : IngressRule) :
    ruleHostnames (rules.set i nr) = (ruleHostnames rules).set i nr.hostname := by
  simp [ruleHostnames, List.map_set]

theorem catchAllOk_applyUpsert (rules : List IngressRule) (nr : IngressRule)
    (h : catchAllOk rules) : catchAllOk (applyUpsert rules nr) := by
  unfold applyUpsert
  cases hfi : jsFindIndex (fun r => decide (r.hostname = nr.hostname)) rules with
  | some i =>
    obtain ⟨r, hr, hpr⟩ := jsFindIndex_some _ rules i hfi
    have hname : r.hostname = nr.hostname := of_decide_eq_true hpr
    have hsame : ruleHostnames (rules.set i nr) = ruleHostnames rules := by
      rw [ruleHostnames_set]
      apply set_self_of_getElem?
      simp [ruleHostnames, List.getElem?_map, hr, hname]
    unfold catchAllOk
    rw [hsame]
    exact h
  | none =>
    have hnm : ∀ r ∈ rules, ¬ r.hostname = nr.hostname := by
      intro r hrm
      have := jsFindIndex_none _ rules hfi r hrm
      simpa using this
    obtain ⟨hcount, hlast⟩ := h
    obtain ⟨ys, hys⟩ := List.getLast?_eq_some_iff.mp hlast
    have hlen : rules.length = ys.length + 1 := by
      have := congrArg List.length hys
      simpa [ruleHostnames] using this
    have hhosts : ruleHostnames (rules.take (rules.length - 1) ++ nr :: rules.drop (rules.length - 1))
        = (ys ++ [nr.hostname]) ++ ["*"] := by
      unfold ruleHostnames
      rw [List.map_append, List.map_cons, List.map_take, List.map_drop]
      show (ruleHostnames rules).take (rules.length - 1) ++
        nr.hostname :: (ruleHostnames rules).drop (rules.length - 1) = _
      rw [hys, hlen]
      simp [List.take_left, List.drop_left]
    have hstar_ne : nr.hostname ≠ "*" := by
      have hmem : "*" ∈ ruleHostnames rules := by
        rw [hys]; simp
      obtain ⟨r, hrm, hrh⟩ := List.mem_map.mp hmem
      intro hcontra
      exact hnm r hrm (hrh.trans hcontra.symm)
    have hys0 : ys.count "*" = 0 := by
      have : (ruleHostnames rules).count "*" = ys.count "*" + 1 := by
        rw [hys, List.count_append]
        simp
      omega
    constructor
    · rw [hhosts, List.count_append, List.count_append]
      have h1 : List.count "*" [nr.hostname] = 0 := by
        simp [List.count_cons]
        intro hc
        exact hstar_ne hc
      rw [hys0] at *
      simp [hys0, h1]
    · rw [hhosts, List.getLast?_concat]


end TunnelDock
namespace TunnelDock

theorem hostnames_filter_ne (h : String) (rules : List IngressRule) :
    ruleHostnames (rules.filter (fun r => decide (¬ r.hostname = h)))
      = (ruleHostnames rules).filter (fun s => decide (¬ s = h)) := by
  induction rules with
  | nil => rfl
  | cons r rs ih =>
    simp only [ruleHostnames] at ih ⊢
    by_cases hr : r.hostname = h
    · simp [List.filter_cons, hr]
      simpa using ih
    · simp [List.filter_cons, hr]
      simpa using ih

theorem catchAllOk_deleteRules (rules : List IngressRule) (hn : String)
    (hca : catchAllOk rules) : catchAllOk (deleteTunnelConfigRules rules hn) := by
  obtain ⟨hcount, hlast⟩ := hca
  simp only [deleteTunnelConfigRules]
  by_cases hstar : hn = "*"
  · subst hstar
    have hany : (rules.filter (fun r => decide (¬ r.hostname = "*"))).any
        (fun r => decide (r.hostname = "*")) = false := by
      rw [Bool.eq_false_iff]
      intro hc
      obtain ⟨r, hrm, hrp⟩ := List.any_eq_true.mp hc
      have h1 := (List.mem_filter.mp hrm).2
      simp at h1 hrp
      exact h1 hrp
    rw [hany]
    simp only [Bool.false_eq_true, if_false]
    constructor
    · unfold ruleHostnames
      rw [List.map_append, List.count_append]
      have hzero : List.count "*" (List.map (fun r => r.hostname)
          (rules.filter (fun r => decide (¬ r.hostname = "*")))) = 0 := by
        have hf := hostnames_filter_ne "*" rules
        unfold ruleHostnames at hf
        rw [hf, List.count_eq_zero]
        intro hmem
        have := (List.mem_filter.mp hmem).2
        simp at this
      rw [hzero]
      rfl
    · unfold ruleHostnames
      rw [List.map_append]
      exact List.getLast?_concat _
  · obtain ⟨ys, hys⟩ := List.getLast?_eq_some_iff.mp hlast
    have hmem : "*" ∈ ruleHostnames rules := by rw [hys]; simp
    obtain ⟨rstar, hrm, hrh⟩ := List.mem_map.mp hmem
    have hne : ¬ ("*" : String) = hn := fun hc => hstar hc.symm
    have hany : (rules.filter (fun r => decide (¬ r.hostname = hn))).any
        (fun r => decide (r.hostname = "*")) = true := by
      rw [List.any_eq_true]
      refine ⟨rstar, ?_, by simp [hrh]⟩
      rw [List.mem_filter]
      exact ⟨hrm, by simp [hrh, hne]⟩
    rw [hany]
    simp only [if_true]
    have hf := hostnames_filter_ne hn rules
    have hfilterstar : List.filter (fun s => decide (¬ s = hn)) ["*"] = ["*"] := by
      simp [hne]
    have hys0 : ys.count "*" = 0 := by
      have : (ruleHostnames rules).count "*" = ys.count "*" + 1 := by
        rw [hys, List.count_append]
        simp
      omega
    constructor
    · rw [hf, hys, List.filter_append, hfilterstar, List.count_append]
      have : List.count "*" (List.filter (fun s => decide (¬ s = hn)) ys) = 0 := by
        rw [List.count_eq_zero] at hys0 ⊢
        intro hmm
        exact hys0 (List.mem_filter.mp hmm).1
      rw [this]
      simp
    · rw [hf, hys, List.filter_append, hfilterstar]
      exact List.getLast?_concat _

/-- C3: starting from any ingress rule list whose last element is the unique
catch-all rule (hostname `*`), after any finite sequence of upserts
(`updateTunnelConfig`) and retractions (`deleteTunnelConfig`) the resulting
ingress rule list contains exactly one rule with hostname `*`, and that
rule is the last element of the list. -/
theorem claim_C3_catchall_invariant (rules : List IngressRule) (ops : List IngressOp)
    (h : catchAllOk rules) : catchAllOk (applyIngressOps rules ops) := by
  induction ops generalizing rules with
  | nil => exact h
  | cons op rest ih =>
    show catchAllOk (applyIngressOps (applyIngressOp rules op) rest)
    cases op with
    | upsert cfg => exact ih _ (catchAllOk_applyUpsert _ _ h)
    | retract hn => exact ih _ (catchAllOk_deleteRules _ _ h)

/-- Witness for C3 at a concrete starting list and operation sequence. -/
theorem claim_C3_witness :
    catchAllOk (applyIngressOps [catchAllRule]
      [IngressOp.upsert { hostname := "web1.example.com", service := "http://localhost:8080" },
       IngressOp.upsert { hostname := "web2.example.com", service := "http://localhost:3000" },
       IngressOp.retract "web1.example.com"]) :=
  claim_C3_catchall_invariant _ _ (by decide)

end TunnelDock
namespace TunnelDock

/-! ## Facts about `shouldManageTunnel` -/

/-- JS `"/name".replace("/", "")` strips the leading slash Docker puts on
container names. -/
theorem removeFirstSlash_slash (name : String) : removeFirstSlash ("/" ++ name) = name := by
  unfold removeFirstSlash
  have hd : ("/" ++ name).data = '/' :: name.data := by
    rw [String.data_append]
    rfl
  rw [hd]
  show String.mk (removeFirstSlashAux ('/' :: name.data)) = name
  simp only [removeFirstSlashAux, if_pos rfl]
  cases name
  rfl

/-- On a steady `running → running` observation the edge gate fails and
`shouldManageTunnel` returns no declaration. -/
theorem shouldManageTunnel_steady (domain : String) (c : ContainerInfo)
    (h : c.State = "running") :
    shouldManageTunnel domain c (some "running") = { shouldManage := false, config := none } := by
  unfold shouldManageTunnel
  have hgate : ¬ (some "running" ≠ some c.State ∧ c.State = "running") := by
    rw [h]
    simp
  by_cases ha : (parseDotNotationLabels (c.Labels.getD [])).assign = some true
  · simp [ha, hgate]
    exact fun hx _ => hx h.symm
  · simp [ha]

/-- C2: for a container observed `running` on two consecutive ticks
(previous state `running`, current state `running`), `shouldManageTunnel`
returns `shouldManage = false`, so `syncContainer` issues no ingress
configuration call and no DNS call on that tick and leaves the persisted
store untouched. -/
theorem claim_C2_edge_trigger (domain tunnelId : String) (c : ContainerInfo)
    (dnsStatus now : String) (store : TunnelDockData)
    (h : c.State = "running") :
    (shouldManageTunnel domain c (some "running")).shouldManage = false ∧
    syncContainerCalls domain tunnelId c (some "running") = [] ∧
    syncContainerStore domain tunnelId c (some "running") dnsStatus now store = store := by
  have hs := shouldManageTunnel_steady domain c h
  refine ⟨by rw [hs], ?_, ?_⟩
  · unfold syncContainerCalls
    rw [hs]
  · unfold syncContainerStore
    rw [hs]

/-- Witness for C2 at a concrete running container. -/
theorem claim_C2_witness :
    (shouldManageTunnel "example.com"
      { Names := ["/web1"], State := "running", Labels := some [("tunneldock.assign","true")] }
      (some "running")).shouldManage = false ∧
    syncContainerCalls "example.com" "tid"
      { Names := ["/web1"], State := "running", Labels := some [("tunneldock.assign","true")] }
      (some "running") = [] ∧
    syncContainerStore "example.com" "tid"
      { Names := ["/web1"], State := "running", Labels := some [("tunneldock.assign","true")] }
      (some "running") "created" "t1"
      { timestamp := "t0", containers := [], tunnels := [], domains := [] }
      = { timestamp := "t0", containers := [], tunnels := [], domains := [] } :=
  claim_C2_edge_trigger "example.com" "tid" _ "created" "t1" _ rfl

/-- C1 (amended): the Cleanup Sweeper's desired-hostname computation calls
`shouldManageTunnel` without a previous state, so its gate degenerates to a
lifecycle-state filter: a container with `assign=true` contributes its
resolved hostname exactly when its current state is `running`. A stopped
container carrying the assign label is therefore *not* desired, is
classified stale, and is retracted. -/
theorem claim_C1_amended (domain : String) (c : ContainerInfo)
    (h : (parseDotNotationLabels (c.Labels.getD [])).assign = some true) :
    ((shouldManageTunnel domain c none).config).isSome ↔ c.State = "running" := by
  unfold shouldManageTunnel
  by_cases hr : c.State = "running"
  · simp [h, hr]
  · simp [h, hr]

/-- Witness for C1's amended theorem at a concrete running container. -/
theorem claim_C1_witness :
    ((shouldManageTunnel "example.com"
      { Names := ["/web1"], State := "running", Labels := some [("tunneldock.assign","true")] }
      none).config).isSome ↔
    ContainerInfo.State
      { Names := ["/web1"], State := "running", Labels := some [("tunneldock.assign","true")] }
      = "running" :=
  claim_C1_amended "example.com" _ (by decide)

/-- C1 counterexample: a container that is stopped (`State = "exited"`) but
still carries `tunneldock.assign=true` yields no config in the sweep's
desired-state pass, *is* classified stale by `cleanupStaleRecords`, and its
persisted sync record, domain record and ingress rule are all retracted —
the claim's "never classified as stale" is false. -/
theorem claim_C1_counterexample :
    (shouldManageTunnel "example.com"
      { Names := ["/web1"], State := "exited", Labels := some [("tunneldock.assign","true")] }
      none).config = none ∧
    staleHostnames "example.com"
      [{ Names := ["/web1"], State := "exited", Labels := some [("tunneldock.assign","true")] }]
      [("web1.example.com",
        { hostname := "web1.example.com", service := "http://localhost:8080",
          lastSync := "t0", tunnelId := "tid", dnsStatus := some "created",
          configStatus := "updated" })]
      = ["web1.example.com"] ∧
    (cleanupStore "example.com"
      [{ Names := ["/web1"], State := "exited", Labels := some [("tunneldock.assign","true")] }]
      { timestamp := "t0", containers := [],
        tunnels := [("web1.example.com",
          { hostname := "web1.example.com", service := "http://localhost:8080",
            lastSync := "t0", tunnelId := "tid", dnsStatus := some "created",
            configStatus := "updated" })],
        domains := [("web1.example.com",
          { hostname := "web1.example.com", target := "tid.cfargotunnel.com",
            lastSync := "t0", status := "created" })] }
      "t1").1.tunnels = [] ∧
    (cleanupStore "example.com"
      [{ Names := ["/web1"], State := "exited", Labels := some [("tunneldock.assign","true")] }]
      { timestamp := "t0", containers := [],
        tunnels := [("web1.example.com",
          { hostname := "web1.example.com", service := "http://localhost:8080",
            lastSync := "t0", tunnelId := "tid", dnsStatus := some "created",
            configStatus := "updated" })],
        domains := [("web1.example.com",
          { hostname := "web1.example.com", target := "tid.cfargotunnel.com",
            lastSync := "t0", status := "created" })] }
      "t1").1.domains = [] ∧
    deleteTunnelConfigRules
      [{ hostname := "web1.example.com", service := "http://localhost:8080" }, catchAllRule]
      "web1.example.com" = [catchAllRule] := by
  decide

/-- C6: hostname qualification in `shouldManageTunnel` with base domain
`example.com`: label hostname `foo` resolves to `foo.example.com`;
`foo.example.com` passes through unchanged; `foo.other.com` resolves to
`foo.other.com.example.com`; with no hostname label the result is
`<container-name>.example.com`. -/
theorem claim_C6_hostname_qualification :
    ((shouldManageTunnel "example.com"
        { Names := ["/c1"], State := "running",
          Labels := some [("tunneldock.assign","true"),("tunneldock.hostname","foo")] }
        none).config.map (fun cfg => cfg.hostname) = some "foo.example.com") ∧
    ((shouldManageTunnel "example.com"
        { Names := ["/c1"], State := "running",
          Labels := some [("tunneldock.assign","true"),("tunneldock.hostname","foo.example.com")] }
        none).config.map (fun cfg => cfg.hostname) = some "foo.example.com") ∧
    ((shouldManageTunnel "example.com"
        { Names := ["/c1"], State := "running",
          Labels := some [("tunneldock.assign","true"),("tunneldock.hostname","foo.other.com")] }
        none).config.map (fun cfg => cfg.hostname) = some "foo.other.com.example.com") ∧
    (∀ name : String,
      (shouldManageTunnel "example.com"
        { Names := ["/" ++ name], State := "running",
          Labels := some [("tunneldock.assign","true")] }
        none).config.map (fun cfg => cfg.hostname) = some (name ++ ".example.com")) := by
  refine ⟨by decide, by decide, by decide, ?_⟩
  intro name
  show some (removeFirstSlash ("/" ++ name) ++ "." ++ "example.com") = some (name ++ ".example.com")
  rw [removeFirstSlash_slash, String.append_assoc]
  rfl

/-- C9 counterexample: for a container whose first listed port has no
`PublicPort` but whose second does (8080), the code resolves port 80 — not
the second port's public port as the claim asserts. -/
theorem claim_C9_counterexample :
    ((shouldManageTunnel "example.com"
      { Names := ["/c9"], State := "running",
        Labels := some [("tunneldock.assign","true")],
        Ports := some [{ PrivatePort := 5000 }, { PrivatePort := 6000, PublicPort := some 8080 }] }
      none).config.map (fun cfg => cfg.port) = some 80) ∧
    ¬ ((shouldManageTunnel "example.com"
      { Names := ["/c9"], State := "running",
        Labels := some [("tunneldock.assign","true")],
        Ports := some [{ PrivatePort := 5000 }, { PrivatePort := 6000, PublicPort := some 8080 }] }
      none).config.map (fun cfg => cfg.port) = some 8080) := by
  decide

/-- C9 (amended): the resolved port is the explicit `service.port` label
value when present (and nonzero); otherwise the `PublicPort` of the *first*
entry of the ports list when that entry has one (and it is nonzero);
otherwise 80 — later entries of the ports list are never consulted. -/
theorem claim_C9_amended (ps rest : List Port) (p : Port) (q : Int)
    (hq1 : p.PublicPort = some q) (hq2 : q ≠ 0) :
    ((shouldManageTunnel "example.com"
        { Names := ["/c9"], State := "running",
          Labels := some [("tunneldock.assign","true"),("tunneldock.service.port","8080")],
          Ports := some ps } none).config.map (fun cfg => cfg.port) = some 8080) ∧
    ((shouldManageTunnel "example.com"
        { Names := ["/c9"], State := "running",
          Labels := some [("tunneldock.assign","true")],
          Ports := some (p :: rest) } none).config.map (fun cfg => cfg.port) = some q) ∧
    ((shouldManageTunnel "example.com"
        { Names := ["/c9"], State := "running",
          Labels := some [("tunneldock.assign","true")],
          Ports := some ({ PrivatePort := 9 } :: rest) } none).config.map (fun cfg => cfg.port) = some 80) := by
  refine ⟨rfl, ?_, rfl⟩
  show some (jsOrInt p.PublicPort 80) = some q
  rw [hq1]
  simp [jsOrInt, hq2]

/-- Witness for C9's amended theorem at a concrete ports list. -/
theorem claim_C9_witness :
    ((shouldManageTunnel "example.com"
        { Names := ["/c9"], State := "running",
          Labels := some [("tunneldock.assign","true"),("tunneldock.service.port","8080")],
          Ports := some [] } none).config.map (fun cfg => cfg.port) = some 8080) ∧
    ((shouldManageTunnel "example.com"
        { Names := ["/c9"], State := "running",
          Labels := some [("tunneldock.assign","true")],
          Ports := some [{ PrivatePort := 6000, PublicPort := some 8080 }] }
        none).config.map (fun cfg => cfg.port) = some 8080) ∧
    ((shouldManageTunnel "example.com"
        { Names := ["/c9"], State := "running",
          Labels := some [("tunneldock.assign","true")],
          Ports := some [{ PrivatePort := 9 }] }
        none).config.map (fun cfg => cfg.port) = some 80) :=
  claim_C9_amended [] [] { PrivatePort := 6000, PublicPort := some 8080 } 8080 rfl (by decide)

end TunnelDock
namespace TunnelDock

/-! ## Facts about the persisted store -/

theorem lookupAssoc_mapset {α : Type u} (k : String) (v : α) (m : List (String × α)) :
    lookupAssoc (m.map (fun kv => if kv.1 = k then (k, v) else kv)) k
      = if m.any (fun kv => decide (kv.1 = k)) then some v else none := by
  induction m with
  | nil => rfl
  | cons kv rest ih =>
    by_cases hk : kv.1 = k
    · simp [lookupAssoc, List.any_cons, hk]
    · have hd : decide (kv.1 = k) = false := by simpa using hk
      simp only [List.map_cons, if_neg hk, List.any_cons, hd, Bool.false_or]
      simp only [lookupAssoc, if_neg hk]
      exact ih

theorem lookupAssoc_append_self {α : Type u} (k : String) (v : α) (m : List (String × α))
    (hmem : m.any (fun kv => decide (kv.1 = k)) = false) :
    lookupAssoc (m ++ [(k, v)]) k = some v := by
  induction m with
  | nil => simp [lookupAssoc]
  | cons kv rest ih =>
    simp only [List.any_cons, Bool.or_eq_false_iff] at hmem
    have hk : ¬ kv.1 = k := by simpa using hmem.1
    simp [lookupAssoc, hk, ih hmem.2]

/-- `m[k] = v` followed by a lookup of `k` yields `v`. -/
theorem lookupAssoc_updateAssoc_self {α : Type u} (m : List (String × α)) (k : String) (v : α) :
    lookupAssoc (updateAssoc m k v) k = some v := by
  unfold updateAssoc
  by_cases hmem : m.any (fun kv => decide (kv.1 = k)) = true
  · rw [if_pos hmem, lookupAssoc_mapset, if_pos hmem]
  · rw [if_neg hmem]
    exact lookupAssoc_append_self k v m (Bool.eq_false_iff.mpr hmem)

/-- `updateTunnelData` never touches the domains map. -/
theorem updateTunnelData_domains (store : TunnelDockData) (h : String)
    (data : TunnelUpdate) (now : String) :
    (updateTunnelData store h data now).domains = store.domains := rfl

/-- No path of `syncContainer` writes the domains map. -/
theorem syncContainerStore_domains (domain tunnelId : String) (c : ContainerInfo)
    (prev : Option String) (dnsStatus now : String) (store : TunnelDockData) :
    (syncContainerStore domain tunnelId c prev dnsStatus now store).domains = store.domains := by
  unfold syncContainerStore
  split
  · rfl
  · rfl

end TunnelDock
namespace TunnelDock

/-- C4 counterexample: a successful reconciliation of `web1.example.com`
(from an empty store) writes the tunnels record but creates no domain
record for the hostname — the domains map stays empty, so the claim's
"created or overwritten on every successful reconciliation" is false. -/
theorem claim_C4_counterexample :
    (syncContainerStore "example.com" "tid"
      { Names := ["/web1"], State := "running", Labels := some [("tunneldock.assign","true")] }
      none "created" "t1"
      { timestamp := "t0", containers := [], tunnels := [], domains := [] }).domains = [] ∧
    lookupAssoc (syncContainerStore "example.com" "tid"
      { Names := ["/web1"], State := "running", Labels := some [("tunneldock.assign","true")] }
      none "created" "t1"
      { timestamp := "t0", containers := [], tunnels := [], domains := [] }).domains
      "web1.example.com" = none ∧
    lookupAssoc (syncContainerStore "example.com" "tid"
      { Names := ["/web1"], State := "running", Labels := some [("tunneldock.assign","true")] }
      none "created" "t1"
      { timestamp := "t0", containers := [], tunnels := [], domains := [] }).tunnels
      "web1.example.com"
      = some { hostname := "web1.example.com", service := "http://localhost:80",
               lastSync := "t1", tunnelId := "tid", dnsStatus := some "created",
               configStatus := "updated" } := by
  decide

/-- C4 (amended): on every successful reconciliation the hostname's
*tunnels* record is created/overwritten with the new statuses and
timestamp, but the *domains* map is left unchanged — the upsert path never
writes a per-hostname domain record (`updateDomainData` has no caller). -/
theorem claim_C4_amended (domain tunnelId : String) (c : ContainerInfo)
    (prev : Option String) (dnsStatus now : String) (store : TunnelDockData)
    (cfg : TunnelCfg)
    (h : shouldManageTunnel domain c prev = { shouldManage := true, config := some cfg }) :
    (syncContainerStore domain tunnelId c prev dnsStatus now store).domains = store.domains ∧
    lookupAssoc (syncContainerStore domain tunnelId c prev dnsStatus now store).tunnels
        cfg.hostname
      = some { hostname := cfg.hostname, service := cfg.service, lastSync := now,
               tunnelId := tunnelId, dnsStatus := some dnsStatus,
               configStatus := "updated" } := by
  refine ⟨syncContainerStore_domains domain tunnelId c prev dnsStatus now store, ?_⟩
  unfold syncContainerStore
  rw [h]
  show lookupAssoc
      (updateTunnelData
        (updateTunnelData store cfg.hostname (syncFirstWrite cfg tunnelId) now)
        cfg.hostname (syncSecondWrite cfg tunnelId dnsStatus) now).tunnels cfg.hostname = _
  unfold updateTunnelData
  rw [lookupAssoc_updateAssoc_self]
  rfl

/-- Witness for C4's amended theorem at a concrete container and store. -/
theorem claim_C4_witness :
    (syncContainerStore "example.com" "tid"
      { Names := ["/web1"], State := "running", Labels := some [("tunneldock.assign","true")] }
      none "created" "t1"
      { timestamp := "t0", containers := [], tunnels := [], domains := [] }).domains
      = ({ timestamp := "t0", containers := [], tunnels := [], domains := [] } : TunnelDockData).domains ∧
    lookupAssoc (syncContainerStore "example.com" "tid"
      { Names := ["/web1"], State := "running", Labels := some [("tunneldock.assign","true")] }
      none "created" "t1"
      { timestamp := "t0", containers := [], tunnels := [], domains := [] }).tunnels
      "web1.example.com"
      = some { hostname := "web1.example.com", service := "http://localhost:80",
               lastSync := "t1", tunnelId := "tid", dnsStatus := some "created",
               configStatus := "updated" } :=
  claim_C4_amended "example.com" "tid" _ none "created" "t1" _
    { containerName := "web1", hostname := "web1.example.com", port := 80,
      service := "http://localhost:80", originRequest := {} }
    (by decide)

/-- C8 counterexample: the first of the two persisted writes of an upsert
supplies no `dnsStatus`, yet the previously stored record's
`dnsStatus = "created"` survives it — `updateTunnelData` merges
(`{...existing, ...data}`) rather than fully rewriting, so the claim's
"no field of any previously stored record survives unless supplied by the
new write" is false. -/
theorem claim_C8_counterexample :
    (syncFirstWrite
      { containerName := "web1", hostname := "web1.example.com", port := 81,
        service := "http://localhost:81", originRequest := {} } "tid").dnsStatus = none ∧
    lookupAssoc (updateTunnelData
      { timestamp := "t0", containers := [],
        tunnels := [("web1.example.com",
          { hostname := "web1.example.com", service := "http://localhost:80",
            lastSync := "t0", tunnelId := "tid", dnsStatus := some "created",
            configStatus := "updated" })],
        domains := [] }
      "web1.example.com"
      (syncFirstWrite
        { containerName := "web1", hostname := "web1.example.com", port := 81,
          service := "http://localhost:81", originRequest := {} } "tid")
      "t1").tunnels "web1.example.com"
      = some { hostname := "web1.example.com", service := "http://localhost:81",
               lastSync := "t1", tunnelId := "tid", dnsStatus := some "created",
               configStatus := "updated" } := by
  decide

/-- C8 (amended): after a successful upsert the sync record is written
twice in sequence (once after the ingress mutation, once after the DNS
mutation), but each write *merges* with the stored record: a field the
first write does not supply (its `dnsStatus`) survives from the previous
record; the second write supplies every schema field, so the final record
is fully determined by the new data and the current timestamp. -/
theorem claim_C8_amended (domain tunnelId : String) (c : ContainerInfo)
    (prev : Option String) (dnsStatus now : String) (store : TunnelDockData)
    (cfg : TunnelCfg) (ex : TunnelRecord)
    (h : shouldManageTunnel domain c prev = { shouldManage := true, config := some cfg })
    (hex : lookupAssoc store.tunnels cfg.hostname = some ex) :
    syncContainerStore domain tunnelId c prev dnsStatus now store
      = updateTunnelData
          (updateTunnelData store cfg.hostname (syncFirstWrite cfg tunnelId) now)
          cfg.hostname (syncSecondWrite cfg tunnelId dnsStatus) now ∧
    lookupAssoc (updateTunnelData store cfg.hostname (syncFirstWrite cfg tunnelId) now).tunnels
        cfg.hostname
      = some { hostname := cfg.hostname, service := cfg.service, lastSync := now,
               tunnelId := tunnelId, dnsStatus := ex.dnsStatus,
               configStatus := "updated" } ∧
    lookupAssoc (syncContainerStore domain tunnelId c prev dnsStatus now store).tunnels
        cfg.hostname
      = some { hostname := cfg.hostname, service := cfg.service, lastSync := now,
               tunnelId := tunnelId, dnsStatus := some dnsStatus,
               configStatus := "updated" } := by
  have h1 : syncContainerStore domain tunnelId c prev dnsStatus now store
      = updateTunnelData
          (updateTunnelData store cfg.hostname (syncFirstWrite cfg tunnelId) now)
          cfg.hostname (syncSecondWrite cfg tunnelId dnsStatus) now := by
    unfold syncContainerStore
    rw [h]
  refine ⟨h1, ?_, ?_⟩
  · unfold updateTunnelData
    rw [lookupAssoc_updateAssoc_self, hex]
    rfl
  · rw [h1]
    unfold updateTunnelData
    rw [lookupAssoc_updateAssoc_self]
    rfl

/-- Witness for C8's amended theorem at a concrete container and a store
already holding a record for the hostname. -/
theorem claim_C8_witness :
    syncContainerStore "example.com" "tid"
      { Names := ["/web1"], State := "running", Labels := some [("tunneldock.assign","true")] }
      none "unchanged" "t1"
      { timestamp := "t0", containers := [],
        tunnels := [("web1.example.com",
          { hostname := "web1.example.com", service := "http://localhost:80",
            lastSync := "t0", tunnelId := "tid", dnsStatus := some "created",
            configStatus := "updated" })],
        domains := [] }
      = updateTunnelData
          (updateTunnelData
            { timestamp := "t0", containers := [],
              tunnels := [("web1.example.com",
                { hostname := "web1.example.com", service := "http://localhost:80",
                  lastSync := "t0", tunnelId := "tid", dnsStatus := some "created",
                  configStatus := "updated" })],
              domains := [] }
            "web1.example.com"
            (syncFirstWrite
              { containerName := "web1", hostname := "web1.example.com", port := 80,
                service := "http://localhost:80", originRequest := {} } "tid")
            "t1")
          "web1.example.com"
          (syncSecondWrite
            { containerName := "web1", hostname := "web1.example.com", port := 80,
              service := "http://localhost:80", originRequest := {} } "tid" "unchanged")
          "t1" ∧
    lookupAssoc (updateTunnelData
      { timestamp := "t0", containers := [],
        tunnels := [("web1.example.com",
          { hostname := "web1.example.com", service := "http://localhost:80",
            lastSync := "t0", tunnelId := "tid", dnsStatus := some "created",
            configStatus := "updated" })],
        domains := [] }
      "web1.example.com"
      (syncFirstWrite
        { containerName := "web1", hostname := "web1.example.com", port := 80,
          service := "http://localhost:80", originRequest := {} } "tid")
      "t1").tunnels "web1.example.com"
      = some { hostname := "web1.example.com", service := "http://localhost:80",
               lastSync := "t1", tunnelId := "tid", dnsStatus := some "created",
               configStatus := "updated" } ∧
    lookupAssoc (syncContainerStore "example.com" "tid"
      { Names := ["/web1"], State := "running", Labels := some [("tunneldock.assign","true")] }
      none "unchanged" "t1"
      { timestamp := "t0", containers := [],
        tunnels := [("web1.example.com",
          { hostname := "web1.example.com", service := "http://localhost:80",
            lastSync := "t0", tunnelId := "tid", dnsStatus := some "created",
            configStatus := "updated" })],
        domains := [] }).tunnels "web1.example.com"
      = some { hostname := "web1.example.com", service := "http://localhost:80",
               lastSync := "t1", tunnelId := "tid", dnsStatus := some "unchanged",
               configStatus := "updated" } :=
  claim_C8_amended "example.com" "tid" _ none "unchanged" "t1" _
    { containerName := "web1", hostname := "web1.example.com", port := 80,
      service := "http://localhost:80", originRequest := {} }
    { hostname := "web1.example.com", service := "http://localhost:80",
      lastSync := "t0", tunnelId := "tid", dnsStatus := some "created",
      configStatus := "updated" }
    (by decide) (by decide)

end TunnelDock
namespace TunnelDock

/-! ## Facts about the monitoring loop -/

/-- A tick whose snapshot write and sweep write both succeed runs to
completion, whatever happens inside `syncContainer`. -/
theorem runTick_ok (domain tunnelId : String) (input : TickInput)
    (prev : List ContainerInfo) (store : TunnelDockData)
    (h1 : input.snapshotSaveFails = false) (h2 : input.cleanupSaveFails = false) :
    (runTick domain tunnelId input prev store).ok = true := by
  unfold runTick
  rw [h1]
  simp only [Bool.false_eq_true, if_false]
  split
  · rfl
  · rw [h2]
    simp

/-- When no snapshot or sweep write fails, the loop completes every queued
tick (`syncContainer`-level failures included). -/
theorem runLoop_complete (domain tunnelId : String) (ticks : List TickInput) :
    ∀ (prev : List ContainerInfo) (store : TunnelDockData),
    (∀ x ∈ ticks, x.snapshotSaveFails = false) →
    (∀ x ∈ ticks, x.cleanupSaveFails = false) →
    (runLoop domain tunnelId ticks prev store).1 = ticks.length := by
  induction ticks with
  | nil =>
    intro prev store _ _
    rfl
  | cons x xs ih =>
    intro prev store hsnap hclean
    have hok := runTick_ok domain tunnelId x prev store
      (hsnap x (List.mem_cons_self x xs)) (hclean x (List.mem_cons_self x xs))
    simp only [runLoop, hok, if_true, List.length_cons]
    rw [ih _ _ (fun y hy => hsnap y (List.mem_cons_of_mem x hy))
      (fun y hy => hclean y (List.mem_cons_of_mem x hy))]

/-- C5 (amended): a `saveData` failure inside `syncContainer` (the
per-hostname `updateTunnelData` writes) is caught at that per-hostname
boundary and the loop completes every tick; but the per-tick snapshot
write and the sweep's final write (which runs exactly when the sweep found
stale hostnames) are covered only by the single outer catch of
`watchContainers`, so a failure in either terminates the monitoring loop —
zero further ticks run. -/
theorem claim_C5_amended (domain tunnelId : String) (ticks rest rest' : List TickInput)
    (t u : TickInput) (prev prev' prev'' : List ContainerInfo)
    (store store' store'' : TunnelDockData)
    (hsnap : ∀ x ∈ ticks, x.snapshotSaveFails = false)
    (hclean : ∀ x ∈ ticks, x.cleanupSaveFails = false)
    (hfail : t.snapshotSaveFails = true)
    (hu1 : u.snapshotSaveFails = false) (hu2 : u.cleanupSaveFails = true)
    (hustale : (cleanupStore domain u.containers
        (tickSyncStore domain tunnelId u prev'' (tickSnapshotStore u store''))
        u.now).2.isEmpty = false) :
    (runLoop domain tunnelId ticks prev store).1 = ticks.length ∧
    (runLoop domain tunnelId (t :: rest) prev' store').1 = 0 ∧
    (runLoop domain tunnelId (u :: rest') prev'' store'').1 = 0 := by
  refine ⟨runLoop_complete domain tunnelId ticks prev store hsnap hclean, ?_, ?_⟩
  · have hko : (runTick domain tunnelId t prev' store').ok = false := by
      unfold runTick
      rw [hfail]
      simp
    simp only [runLoop, hko]
    simp
  · have hko : (runTick domain tunnelId u prev'' store'').ok = false := by
      unfold runTick
      rw [hu1]
      simp [hustale, hu2]
    simp only [runLoop, hko]
    simp

/-- Witness for C5's amended theorem: one benign tick completes; a tick
with a failing snapshot write completes zero ticks; a tick whose sweep
finds a stale hostname and whose sweep write fails completes zero ticks. -/
theorem claim_C5_witness :
    (runLoop "example.com" "tid" [{ containers := [], now := "t1" }] []
      { timestamp := "t0", containers := [], tunnels := [], domains := [] }).1
      = ([{ containers := [], now := "t1" }] : List TickInput).length ∧
    (runLoop "example.com" "tid"
      [{ containers := [], now := "t1", snapshotSaveFails := true },
       { containers := [], now := "t2" }] []
      { timestamp := "t0", containers := [], tunnels := [], domains := [] }).1 = 0 ∧
    (runLoop "example.com" "tid"
      [{ containers := [], now := "t1", cleanupSaveFails := true },
       { containers := [], now := "t2" }] []
      { timestamp := "t0", containers := [],
        tunnels := [("web1.example.com",
          { hostname := "web1.example.com", service := "http://localhost:8080",
            lastSync := "t0", tunnelId := "tid", dnsStatus := some "created",
            configStatus := "updated" })],
        domains := [] }).1 = 0 :=
  claim_C5_amended "example.com" "tid" [{ containers := [], now := "t1" }]
    [{ containers := [], now := "t2" }] [{ containers := [], now := "t2" }]
    { containers := [], now := "t1", snapshotSaveFails := true }
    { containers := [], now := "t1", cleanupSaveFails := true } [] [] []
    { timestamp := "t0", containers := [], tunnels := [], domains := [] }
    { timestamp := "t0", containers := [], tunnels := [], domains := [] }
    { timestamp := "t0", containers := [],
      tunnels := [("web1.example.com",
        { hostname := "web1.example.com", service := "http://localhost:8080",
          lastSync := "t0", tunnelId := "tid", dnsStatus := some "created",
          configStatus := "updated" })],
      domains := [] }
    (by intro x hx; simp at hx; subst hx; rfl)
    (by intro x hx; simp at hx; subst hx; rfl)
    rfl rfl rfl (by decide)

/-- C5 counterexample: two queued ticks, the first tick's snapshot
`saveData` fails — the loop completes zero iterations and never reaches
the second tick (while the same two ticks without the failure complete
both), so a persistence failure *does* terminate the monitoring loop
rather than being caught at a per-tick boundary. -/
theorem claim_C5_counterexample :
    (runLoop "example.com" "tid"
      [{ containers := [], now := "t1", snapshotSaveFails := true },
       { containers := [], now := "t2" }]
      [] { timestamp := "t0", containers := [], tunnels := [], domains := [] }).1 = 0 ∧
    (runLoop "example.com" "tid"
      [{ containers := [], now := "t1" },
       { containers := [], now := "t2" }]
      [] { timestamp := "t0", containers := [], tunnels := [], domains := [] }).1 = 2 := by
  constructor
  · rfl
  · rfl

end TunnelDock
namespace TunnelDock

/-! ## Facts about DNS management -/

/-- C7: `manageDNSRecord` returns exactly one of three statuses: with no
CNAME record for the exact hostname it issues one create call with content
`<tunnelId>.cfargotunnel.com` and returns `created`; with an existing
record whose content differs from that target it issues one update call
and returns `updated`; with an existing record whose content equals the
target it issues no mutation call, leaves the zone unchanged, and returns
`unchanged`. -/
theorem claim_C7_dns_statuses (zone : DNSZone) (hostname tunnelId : String) :
    (listCNAME zone hostname = [] →
      (manageDNSRecord zone hostname tunnelId).status = "created" ∧
      (manageDNSRecord zone hostname tunnelId).zone.records
        = zone.records ++
          [{ id := zone.nextId
             name := canonicalDNSName zone.zoneDomain ((jsSplitDot hostname).headD "")
             rtype := "CNAME"
             content := tunnelId ++ ".cfargotunnel.com" }] ∧
      (manageDNSRecord zone hostname tunnelId).calls
        = [DNSCall.create ((jsSplitDot hostname).headD "") (tunnelId ++ ".cfargotunnel.com")]) ∧
    (∀ r rest, listCNAME zone hostname = r :: rest →
      r.content ≠ tunnelId ++ ".cfargotunnel.com" →
      (manageDNSRecord zone hostname tunnelId).status = "updated" ∧
      (manageDNSRecord zone hostname tunnelId).calls
        = [DNSCall.update r.id ((jsSplitDot hostname).headD "") (tunnelId ++ ".cfargotunnel.com")]) ∧
    (∀ r rest, listCNAME zone hostname = r :: rest →
      r.content = tunnelId ++ ".cfargotunnel.com" →
      (manageDNSRecord zone hostname tunnelId).status = "unchanged" ∧
      (manageDNSRecord zone hostname tunnelId).zone = zone ∧
      (manageDNSRecord zone hostname tunnelId).calls = []) := by
  refine ⟨?_, ?_, ?_⟩
  · intro h
    unfold manageDNSRecord
    rw [h]
    exact ⟨rfl, rfl, rfl⟩
  · intro r rest h hne
    unfold manageDNSRecord
    rw [h]
    dsimp only
    rw [if_pos hne]
    exact ⟨rfl, rfl⟩
  · intro r rest h heq
    unfold manageDNSRecord
    rw [h]
    dsimp only
    rw [if_neg (not_not_intro heq)]
    exact ⟨rfl, rfl, rfl⟩

/-- Witness for C7 exercising all three statuses at concrete zones. -/
theorem claim_C7_witness :
    ((manageDNSRecord { zoneDomain := "example.com", records := [], nextId := 0 }
        "web1.example.com" "tid").status = "created" ∧
      (manageDNSRecord { zoneDomain := "example.com", records := [], nextId := 0 }
        "web1.example.com" "tid").zone.records
        = ({ zoneDomain := "example.com", records := [], nextId := 0 } : DNSZone).records ++
          [{ id := ({ zoneDomain := "example.com", records := [], nextId := 0 } : DNSZone).nextId
             name := canonicalDNSName "example.com" ((jsSplitDot "web1.example.com").headD "")
             rtype := "CNAME"
             content := "tid" ++ ".cfargotunnel.com" }] ∧
      (manageDNSRecord { zoneDomain := "example.com", records := [], nextId := 0 }
        "web1.example.com" "tid").calls
        = [DNSCall.create ((jsSplitDot "web1.example.com").headD "") ("tid" ++ ".cfargotunnel.com")]) ∧
    ((manageDNSRecord
        { zoneDomain := "example.com",
          records := [{ id := 7, name := "web1.example.com", rtype := "CNAME", content := "old" }],
          nextId := 8 } "web1.example.com" "tid").status = "updated" ∧
      (manageDNSRecord
        { zoneDomain := "example.com",
          records := [{ id := 7, name := "web1.example.com", rtype := "CNAME", content := "old" }],
          nextId := 8 } "web1.example.com" "tid").calls
        = [DNSCall.update 7 ((jsSplitDot "web1.example.com").headD "") ("tid" ++ ".cfargotunnel.com")]) ∧
    ((manageDNSRecord
        { zoneDomain := "example.com",
          records := [{ id := 7, name := "web1.example.com", rtype := "CNAME",
                        content := "tid.cfargotunnel.com" }],
          nextId := 8 } "web1.example.com" "tid").status = "unchanged" ∧
      (manageDNSRecord
        { zoneDomain := "example.com",
          records := [{ id := 7, name := "web1.example.com", rtype := "CNAME",
                        content := "tid.cfargotunnel.com" }],
          nextId := 8 } "web1.example.com" "tid").zone
        = { zoneDomain := "example.com",
            records := [{ id := 7, name := "web1.example.com", rtype := "CNAME",
                          content := "tid.cfargotunnel.com" }],
            nextId := 8 } ∧
      (manageDNSRecord
        { zoneDomain := "example.com",
          records := [{ id := 7, name := "web1.example.com", rtype := "CNAME",
                        content := "tid.cfargotunnel.com" }],
          nextId := 8 } "web1.example.com" "tid").calls = []) :=
  ⟨(claim_C7_dns_statuses _ _ _).1 (by decide),
   (claim_C7_dns_statuses _ _ _).2.1
     { id := 7, name := "web1.example.com", rtype := "CNAME", content := "old" } []
     (by decide) (by decide),
   (claim_C7_dns_statuses _ _ _).2.2
     { id := 7, name := "web1.example.com", rtype := "CNAME", content := "tid.cfargotunnel.com" } []
     (by decide) (by decide)⟩

/-- C10: the DNS lookup filters by the full hostname, but the create and
update calls pass only `hostname.split('.')[0]` as the record name; for
`a.b.example.com` in zone `example.com` the name written (`a`, stored
canonically as `a.example.com`) differs from the name looked up, and a
second `manageDNSRecord` run for the same hostname does not find the
record the first run created — it reports `created` again. -/
theorem claim_C10_subdomain_mismatch :
    (jsSplitDot "a.b.example.com").headD "" = "a" ∧
    ("a" : String) ≠ "a.b.example.com" ∧
    (manageDNSRecord { zoneDomain := "example.com", records := [], nextId := 0 }
      "a.b.example.com" "tid").status = "created" ∧
    (manageDNSRecord { zoneDomain := "example.com", records := [], nextId := 0 }
      "a.b.example.com" "tid").calls = [DNSCall.create "a" "tid.cfargotunnel.com"] ∧
    (manageDNSRecord { zoneDomain := "example.com", records := [], nextId := 0 }
      "a.b.example.com" "tid").zone.records
      = [{ id := 0, name := "a.example.com", rtype := "CNAME",
           content := "tid.cfargotunnel.com" }] ∧
    (manageDNSRecord
      (manageDNSRecord { zoneDomain := "example.com", records := [], nextId := 0 }
        "a.b.example.com" "tid").zone
      "a.b.example.com" "tid").status = "created" := by
  decide

/-- Witness instantiating C6's universally quantified conjunct at a
concrete container name. -/
theorem claim_C6_witness :
    (shouldManageTunnel "example.com"
      { Names := ["/" ++ "web1"], State := "running",
        Labels := some [("tunneldock.assign","true")] }
      none).config.map (fun cfg => cfg.hostname) = some ("web1" ++ ".example.com") :=
  claim_C6_hostname_qualification.2.2.2 "web1"

end TunnelDock
